import Mathlib

/-!
# Verification of the wave_flight_app BCI pipeline

A shallow embedding of the motor-imagery BCI system
(`python_bci/bci_motor_imagery_complete.py` and
`python_bci/bci_flutter_bridge.py`).

Real-valued signal samples, powers and ERD percentages are modelled as
rationals.  External library transforms (scipy's Butterworth bandpass,
the iirnotch filter, and Welch PSD band power) are opaque to this
repository's code, so they are passed in as function parameters; the
repository's own arithmetic, control flow and state updates are embedded
directly.
-/

namespace BCI

/-- A 1-D signal: an ordered list of samples (one channel). -/
abbrev Sig := List ℚ

/-- A frequency band `(low, high)` in Hz. -/
abbrev Band := ℚ × ℚ

/-! ## Config constants (class `Config`) -/

/-- `Config.SAMPLING_RATE = 125` Hz. -/
def SAMPLING_RATE : ℕ := 125

/-- `Config.WINDOW_DURATION = 2.0` seconds. -/
def WINDOW_DURATION : ℚ := 2

/-- `Config.STEP_SIZE = 0.5` seconds. -/
def STEP_SIZE : ℚ := 1/2

/-- `Config.CONFIDENCE_WINDOWS = 3` consecutive detections required. -/
def CONFIDENCE_WINDOWS : ℕ := 3

/-- `Config.TRIGGER_COOLDOWN = 2.0` seconds between triggers. -/
def TRIGGER_COOLDOWN : ℚ := 2

/-- `Config.MU_BAND = (8, 12)` Hz. -/
def MU_BAND : Band := (8, 12)

/-- `Config.BETA_BAND = (13, 30)` Hz. -/
def BETA_BAND : Band := (13, 30)

/-- `RealTimeDetector.__init__`: `window_size = int(WINDOW_DURATION * SAMPLING_RATE)` = 250. -/
def window_size : ℕ := 250

/-- `RealTimeDetector.__init__`: `step_size = int(STEP_SIZE * SAMPLING_RATE)` = 62. -/
def step_size : ℕ := 62

/-! ## Signal processor (`SignalProcessor`) -/

/--
`SignalProcessor.compute_erd(activation_power, baseline_power)`
(bci_motor_imagery_complete.py lines 278-285):
`return ((activation_power - baseline_power) / baseline_power) * 100`.
The function performs no validation of `baseline_power`.
-/
def compute_erd (activation_power baseline_power : ℚ) : ℚ :=
  ((activation_power - baseline_power) / baseline_power) * 100

/--
`SignalProcessor.preprocess(data, apply_notch=True)`
(lines 231-252): bandpass filter with the configured band, then the
optional notch filter.  The two scipy filters are parameters; the
`apply_notch` flag mirrors the source argument (the notch `try/except`
degrade path corresponds to calling with the identity notch).
-/
def preprocess (bandpass notch_filter : Sig → Sig) (apply_notch : Bool) (data : Sig) : Sig :=
  let filtered := bandpass data
  if apply_notch then notch_filter filtered else filtered

/-! ## Baseline power (the four-scalar baseline dict) -/

/--
The four baseline band powers `{c3_mu, c3_beta, c4_mu, c4_beta}` computed
by `BaselineCalibrator.collect` (lines 342-347); the bridge's
`run_calibration` builds the same four values under the keys
`c3_mu_power … c4_beta_power` (bridge lines 322-327).
-/
structure Baseline where
  c3_mu : ℚ
  c3_beta : ℚ
  c4_mu : ℚ
  c4_beta : ℚ
deriving DecidableEq, Repr

/-! ## Feature extraction paths -/

/--
The four ERD values computed inline by `RealTimeDetector.process_window`
(lines 674-682): band powers of the two preprocessed channels in the mu
and beta bands, each converted to ERD against the active baseline.
`psd` stands for `SignalProcessor.compute_psd` restricted to a band.
-/
structure ErdVals where
  c3_mu : ℚ
  c3_beta : ℚ
  c4_mu : ℚ
  c4_beta : ℚ
deriving DecidableEq, Repr

/-- The ERD block of `process_window` (lines 670-682), as a function of
the raw window contents: preprocess both channels (bandpass + notch),
compute the four band powers, convert each to ERD. -/
def detection_erds (bandpass notch_filter : Sig → Sig) (psd : Sig → Band → ℚ)
    (baseline : Baseline) (c3_raw c4_raw : Sig) : ErdVals :=
  let c3_clean := preprocess bandpass notch_filter true c3_raw
  let c4_clean := preprocess bandpass notch_filter true c4_raw
  { c3_mu := compute_erd (psd c3_clean MU_BAND) baseline.c3_mu
    c3_beta := compute_erd (psd c3_clean BETA_BAND) baseline.c3_beta
    c4_mu := compute_erd (psd c4_clean MU_BAND) baseline.c4_mu
    c4_beta := compute_erd (psd c4_clean BETA_BAND) baseline.c4_beta }

/-- Line 684: `features = np.array([c3_mu_erd, c3_beta_erd, c4_mu_erd, c4_beta_erd])`. -/
def featureVector (e : ErdVals) : List ℚ :=
  [e.c3_mu, e.c3_beta, e.c4_mu, e.c4_beta]

/-- The `erd_values` dict built at lines 708-713, as an association list. -/
def erdValuesList (e : ErdVals) : List (String × ℚ) :=
  [("c3_mu", e.c3_mu), ("c3_beta", e.c3_beta), ("c4_mu", e.c4_mu), ("c4_beta", e.c4_beta)]

/--
`TrainingCollector._extract_features(c3_data, c4_data)` (lines 435-454):
its inputs are the already-preprocessed channels (the caller
`collect_trial` applies `preprocess` first, lines 414-415); it computes
the four band powers and the four ERD values and returns them in the
fixed order `[C3_mu_ERD, C3_beta_ERD, C4_mu_ERD, C4_beta_ERD]`.
-/
def extract_features (psd : Sig → Band → ℚ) (baseline : Baseline)
    (c3_data c4_data : Sig) : List ℚ :=
  let c3_mu_power := psd c3_data MU_BAND
  let c3_beta_power := psd c3_data BETA_BAND
  let c4_mu_power := psd c4_data MU_BAND
  let c4_beta_power := psd c4_data BETA_BAND
  [compute_erd c3_mu_power baseline.c3_mu,
   compute_erd c3_beta_power baseline.c3_beta,
   compute_erd c4_mu_power baseline.c4_mu,
   compute_erd c4_beta_power baseline.c4_beta]

/-- The complete-pipeline training path (`TrainingCollector.collect_trial`,
lines 405-418): preprocess both channels, then `_extract_features`. -/
def training_features (bandpass notch_filter : Sig → Sig) (psd : Sig → Band → ℚ)
    (baseline : Baseline) (c3_raw c4_raw : Sig) : List ℚ :=
  extract_features psd baseline
    (preprocess bandpass notch_filter true c3_raw)
    (preprocess bandpass notch_filter true c4_raw)

/-! ## Bridge trial collection (`bci_flutter_bridge.py`) -/

/-- The record returned by `collect_trial_data` (bridge lines 499-505). -/
structure TrialRec where
  c3_mu_erd : ℚ
  c3_beta_erd : ℚ
  c4_mu_erd : ℚ
  c4_beta_erd : ℚ
  label : ℕ
deriving DecidableEq, Repr

/--
`collect_trial_data(stream, processor, baseline)` feature computation
(bridge lines 479-505): the collected signals are passed through
`processor.bandpass_filter` ONLY (no notch filter), then the four band
powers and ERD values are computed; the returned record carries
`label = 1` (motor imagery).
-/
def collect_trial_data (bandpass : Sig → Sig) (psd : Sig → Band → ℚ)
    (baseline : Baseline) (c3_signal c4_signal : Sig) : TrialRec :=
  let c3_filtered := bandpass c3_signal
  let c4_filtered := bandpass c4_signal
  let c3_mu_power := psd c3_filtered MU_BAND
  let c3_beta_power := psd c3_filtered BETA_BAND
  let c4_mu_power := psd c4_filtered MU_BAND
  let c4_beta_power := psd c4_filtered BETA_BAND
  { c3_mu_erd := compute_erd c3_mu_power baseline.c3_mu
    c3_beta_erd := compute_erd c3_beta_power baseline.c3_beta
    c4_mu_erd := compute_erd c4_mu_power baseline.c4_mu
    c4_beta_erd := compute_erd c4_beta_power baseline.c4_beta
    label := 1 }

/-- A training example as assembled by `prepare_training_data`
(bridge lines 507-526): a feature vector and a label. -/
structure TrainingExample where
  features : List ℚ
  label : ℕ
deriving DecidableEq, Repr

/-- `prepare_training_data(trials)` (bridge lines 507-526): build the
feature vector `[c3_mu_erd, c3_beta_erd, c4_mu_erd, c4_beta_erd]` from
each trial record and keep its label. -/
def prepare_training_data (trials : List TrialRec) : List TrainingExample :=
  trials.map fun trial =>
    { features := [trial.c3_mu_erd, trial.c3_beta_erd, trial.c4_mu_erd, trial.c4_beta_erd]
      label := trial.label }

/-! ## Real-time detector (`RealTimeDetector`) -/

/--
Appending to a Python `collections.deque` with `maxlen`: the element is
appended on the right and, if the capacity is exceeded, the leftmost
(oldest) elements are dropped.
-/
def dequeAppend {α : Type} (maxlen : ℕ) (buf : List α) (x : α) : List α :=
  let grown := buf ++ [x]
  if maxlen < grown.length then grown.drop (grown.length - maxlen) else grown

/--
The mutable state of a `RealTimeDetector` (lines 632-648): the two
per-channel sliding buffers (`deque(maxlen=window_size)`), the bounded
detection history (`deque(maxlen=CONFIDENCE_WINDOWS)`), the time of the
last trigger (initially 0) and the `is_mi_active` latch.
-/
structure DetectorState where
  c3_buffer : List ℚ
  c4_buffer : List ℚ
  detection_history : List Bool
  last_trigger_time : ℚ
  is_mi_active : Bool
deriving DecidableEq, Repr

/-- A fresh detector (`RealTimeDetector.__init__`): empty buffers, empty
history, `last_trigger_time = 0`, `is_mi_active = False`. -/
def initDetector : DetectorState :=
  { c3_buffer := [], c4_buffer := [], detection_history := []
    last_trigger_time := 0, is_mi_active := false }

/-- `RealTimeDetector.add_sample(c3_sample, c4_sample)` (lines 650-653):
append one sample to each per-channel ring buffer. -/
def add_sample (st : DetectorState) (c3_sample c4_sample : ℚ) : DetectorState :=
  { st with
    c3_buffer := dequeAppend window_size st.c3_buffer c3_sample
    c4_buffer := dequeAppend window_size st.c4_buffer c4_sample }

/-- The per-step output of `process_window`:
`(trigger, prediction, confidence, erd_values)`.  The ERD map is the
dict of lines 708-713, modelled as an association list (empty for the
no-signal result of line 663). -/
structure StepOut where
  trigger : Bool
  prediction : ℕ
  confidence : ℚ
  erd_values : List (String × ℚ)
deriving DecidableEq, Repr

/--
`RealTimeDetector.process_window()` (lines 655-715).  The classifier
(`MIClassifier.predict`) is a parameter returning either an error (a
`ValueError` when untrained) or `(prediction, confidence)`; `now` stands
for `time.time()`.  Control flow follows the source:

* lines 662-663: if the C3 buffer is not yet full, return the
  no-signal result `(False, 0, 0.0, {})` without touching any state;
* lines 666-687: preprocess the window, compute the four ERD values,
  build the feature vector, classify;
* line 690: append `prediction == 1` to the bounded history;
* lines 693-702: fire a trigger iff the history is full and unanimous,
  the detector is not already active, and strictly more than
  `TRIGGER_COOLDOWN` seconds have elapsed since the last trigger; on
  firing set `is_mi_active` and record the trigger time;
* lines 705-706: if the prediction is rest (0), clear `is_mi_active`.
-/
def process_window (bandpass notch_filter : Sig → Sig) (psd : Sig → Band → ℚ)
    (baseline : Baseline) (classify : List ℚ → Except String (ℕ × ℚ))
    (now : ℚ) (st : DetectorState) :
    Except String (StepOut × DetectorState) :=
  if st.c3_buffer.length < window_size then
    .ok ({ trigger := false, prediction := 0, confidence := 0, erd_values := [] }, st)
  else
    let e := detection_erds bandpass notch_filter psd baseline st.c3_buffer st.c4_buffer
    match classify (featureVector e) with
    | .error msg => .error msg
    | .ok (prediction, confidence) =>
      let history := dequeAppend CONFIDENCE_WINDOWS st.detection_history (prediction == 1)
      let confidence_met : Bool :=
        history.length == CONFIDENCE_WINDOWS && history.count true == CONFIDENCE_WINDOWS
      let fireState : Bool × Bool × ℚ :=
        if confidence_met && !st.is_mi_active then
          if now - st.last_trigger_time > TRIGGER_COOLDOWN then
            (true, true, now)
          else
            (false, st.is_mi_active, st.last_trigger_time)
        else
          (false, st.is_mi_active, st.last_trigger_time)
      let trigger := fireState.1
      let active := if prediction == 0 then false else fireState.2.1
      .ok ({ trigger := trigger, prediction := prediction, confidence := confidence
             erd_values := erdValuesList e },
           { st with detection_history := history
                     last_trigger_time := fireState.2.2
                     is_mi_active := active })

/--
Iterated `process_window` steps on a detector whose classifier always
answers class 1 (motor imagery) with a fixed confidence, one step per
listed timestamp.  Returns the list of trigger outputs and the final
state.  (The classifier never errs, so the error branch is vacuous.)
-/
def run_class1 (bandpass notch_filter : Sig → Sig) (psd : Sig → Band → ℚ)
    (baseline : Baseline) (conf : ℚ) (st : DetectorState) :
    List ℚ → List Bool × DetectorState
  | [] => ([], st)
  | t :: ts =>
    match process_window bandpass notch_filter psd baseline
        (fun _ => .ok (1, conf)) t st with
    | .ok (out, st1) =>
      let rest := run_class1 bandpass notch_filter psd baseline conf st1 ts
      (out.trigger :: rest.1, rest.2)
    | .error _ => ([], st)

/-! ## Bridge workers (`bci_flutter_bridge.py`) -/

/-- The values taken by `bci_state['status']` in the bridge. -/
inductive Status where
  | idle
  | calibrating
  | training
  | collectingTrial
  | detecting
deriving DecidableEq, Repr

/-- The slice of the bridge's shared state touched by `run_calibration`:
the status string, the `calibration_complete` flag and the global
`baseline` reference. -/
structure BridgeState where
  status : Status
  calibration_complete : Bool
  baseline : Option Baseline
deriving DecidableEq, Repr

/-- The Python exception caught by `run_calibration`'s `except` block. -/
inductive CalibError where
  | runtimeError (msg : String)
deriving DecidableEq, Repr

/--
`run_calibration()` (bridge lines 238-351), after the acquisition loop:
`chunks` is the list of non-empty data chunks appended to `all_data`
during the baseline duration (line 288-292 appends a chunk only when
`chunk.shape[1] > 0`), and `computeBaseline` stands for the
preprocess-and-band-power computation of the success path
(lines 308-327, external scipy code).

If no chunks were collected, line 295 raises
`RuntimeError("No EEG data collected during calibration")`; the
`except` block (lines 341-351) catches it, sets the status to idle,
sets `calibration_complete = False` and assigns `baseline = None`
(overwriting any previous baseline).  Otherwise the success path stores
the computed baseline, sets `calibration_complete = True` and reverts
the status to idle.  The second component is the exception caught by
the handler (`none` on success); no exception escapes the worker.
-/
def run_calibration (computeBaseline : List Sig → Baseline) (chunks : List Sig)
    (st : BridgeState) : BridgeState × Option CalibError :=
  if chunks.isEmpty then
    ({ st with status := .idle, calibration_complete := false, baseline := none },
     some (.runtimeError "No EEG data collected during calibration"))
  else
    ({ st with status := .idle, calibration_complete := true,
               baseline := some (computeBaseline chunks) }, none)

/-- The observable state of an `MIClassifier` instance: whether
`is_trained` has been set (line 565 sets it only after a successful
`train`; `__init__` leaves it `False`). -/
structure MIClassifierState where
  is_trained : Bool
deriving DecidableEq, Repr

/--
The classifier-training tail of `run_training()` (bridge lines 412-440),
given the collected trials, the previous value of the global
`classifier`, and `trainImpl` — the effect of `MIClassifier.train` on
the prepared training data (scaling, cross-validation and model fitting
are external sklearn code; sklearn raises on single-class data, which
`trainImpl` models by returning an error).

* If at least 10 trials were collected (line 415), the global
  `classifier` is FIRST replaced by a fresh untrained `MIClassifier()`
  (line 422), then `train` is called; a training exception is caught
  and logged (lines 431-434), leaving the fresh untrained instance in
  place of the previous model.
* Otherwise (lines 435-437) the worker only prints
  "need at least 10 trials" and returns; no exception is raised and
  the previous classifier is untouched.

The status is reset to idle in both cases (line 439).  The last
component is the exception escaping the worker — always `none`.
-/
def run_training_finish (trainImpl : List TrainingExample → Except String MIClassifierState)
    (all_trials : List TrialRec) (prev : Option MIClassifierState) :
    Option MIClassifierState × Status × Option String :=
  if 10 ≤ all_trials.length then
    match trainImpl (prepare_training_data all_trials) with
    | .ok trained => (some trained, .idle, none)
    | .error _ => (some { is_trained := false }, .idle, none)
  else
    (prev, .idle, none)

/-!
## Theorems
-/

/--
C6: for every activation power `a` and baseline power `b > 0`,
`compute_erd a b = (a − b) / b × 100` (a well-defined, finite rational,
since the denominator is nonzero), `compute_erd p p = 0` for every
positive `p`, and on the spec's scenario the four ERD values are
`{c3_mu := -20, c3_beta := 0, c4_mu := 0, c4_beta := 0}`.
-/
theorem c6_compute_erd_formula :
    (∀ a b : ℚ, 0 < b → compute_erd a b = (a - b) / b * 100)
    ∧ (∀ p : ℚ, 0 < p → compute_erd p p = 0)
    ∧ (compute_erd 8 10 = -20 ∧ compute_erd 5 5 = 0
       ∧ compute_erd 10 10 = 0 ∧ compute_erd 5 5 = 0) := by
  refine ⟨fun a b _ => rfl, fun p _ => ?_, by norm_num [compute_erd], ?_, ?_, ?_⟩ <;>
    simp [compute_erd]

/-- Witness for C6 at concrete inputs. -/
theorem c6_compute_erd_formula_witness :
    ((0:ℚ) < 10 ∧ compute_erd 8 10 = (8 - 10) / 10 * 100)
    ∧ ((0:ℚ) < 4 ∧ compute_erd 4 4 = 0) :=
  ⟨⟨by norm_num, c6_compute_erd_formula.1 8 10 (by norm_num)⟩,
   ⟨by norm_num, c6_compute_erd_formula.2.1 4 (by norm_num)⟩⟩

/--
C2 counterexample: `compute_erd` does not fail on a non-positive
baseline power; at activation 5 and baseline −5 (≤ 0) it silently
returns the finite value −200.
-/
theorem c2_erd_no_failure_cex :
    compute_erd 5 (-5) = -200 ∧ ((-5 : ℚ) ≤ 0) := by
  norm_num [compute_erd]

/--
C2 amended: `compute_erd` performs no validation of its baseline
argument; for every activation power `a ≥ 0` and baseline power
`b < 0` it silently returns the finite value `(a − b) / b × 100`, which
is at most −100 — a misleading finite number instead of an explicit
failure.
-/
theorem c2_erd_silent_on_nonpositive (a b : ℚ) (ha : 0 ≤ a) (hb : b < 0) :
    compute_erd a b = (a - b) / b * 100 ∧ compute_erd a b ≤ -100 := by
  refine ⟨rfl, ?_⟩
  unfold compute_erd
  rw [div_mul_eq_mul_div, div_le_iff_of_neg hb]
  nlinarith

/-- Witness for C2's amended theorem at activation 5, baseline −5. -/
theorem c2_erd_silent_on_nonpositive_witness :
    (0:ℚ) ≤ 5 ∧ (-5:ℚ) < 0
    ∧ compute_erd 5 (-5) = (5 - (-5)) / (-5) * 100 ∧ compute_erd 5 (-5) ≤ -100 := by
  refine ⟨by norm_num, by norm_num, ?_, ?_⟩
  · exact (c2_erd_silent_on_nonpositive 5 (-5) (by norm_num) (by norm_num)).1
  · exact (c2_erd_silent_on_nonpositive 5 (-5) (by norm_num) (by norm_num)).2

/--
C5 counterexample: the bridge's trial-collection path and the real-time
detection path disagree on the same raw input, because
`collect_trial_data` skips the notch filter.  Concrete instantiation:
identity bandpass, a notch filter that doubles each sample, band power
= head of the signal, unit baseline, input signal `[1]` on both
channels: the bridge computes ERD 0 on every feature while the
detection path computes ERD 100.
-/
theorem c5_feature_paths_differ_cex :
    (prepare_training_data
        [collect_trial_data (fun s => s) (fun s _ => s.headD 1) ⟨1,1,1,1⟩ [1] [1]]).map
          (fun t => t.features)
      ≠ [featureVector (detection_erds (fun s => s) (fun s => s.map (fun x => x * 2))
          (fun s _ => s.headD 1) ⟨1,1,1,1⟩ [1] [1])] := by
  simp only [prepare_training_data, collect_trial_data, detection_erds, featureVector,
    preprocess, compute_erd, List.map, List.headD, if_true]
  norm_num

/--
C5 amended: the complete-pipeline trial collector
(`TrainingCollector.collect_trial`: `preprocess` then
`_extract_features`) computes exactly the feature vector of the
detection path, for every bandpass/notch/PSD implementation, baseline
and input; the bridge's `collect_trial_data`, however, applies only the
bandpass filter, so its feature vector equals the detection path's only
with the notch stage removed (identity notch) — the two bridge code
paths do not share one feature-extraction pipeline.
-/
theorem c5_feature_path_equivalence :
    (∀ (bandpass notch_filter : Sig → Sig) (psd : Sig → Band → ℚ)
       (baseline : Baseline) (c3 c4 : Sig),
        training_features bandpass notch_filter psd baseline c3 c4
          = featureVector (detection_erds bandpass notch_filter psd baseline c3 c4))
    ∧ (∀ (bandpass : Sig → Sig) (psd : Sig → Band → ℚ)
         (baseline : Baseline) (c3 c4 : Sig),
        (prepare_training_data [collect_trial_data bandpass psd baseline c3 c4]).map
            (fun t => t.features)
          = [featureVector (detection_erds bandpass (fun s => s) psd baseline c3 c4)]) :=
  ⟨fun _ _ _ _ _ _ => rfl, fun _ _ _ _ _ => rfl⟩

/--
C10: every trial record produced by `collect_trial_data` carries label 1
(motor imagery), and `prepare_training_data` preserves labels, so the
training set assembled by the bridge contains no rest (label 0) example.
-/
theorem c10_bridge_labels_all_one :
    (∀ (bandpass : Sig → Sig) (psd : Sig → Band → ℚ)
       (baseline : Baseline) (c3 c4 : Sig),
        (collect_trial_data bandpass psd baseline c3 c4).label = 1)
    ∧ (∀ trials : List TrialRec, (∀ t ∈ trials, t.label = 1) →
        ∀ e ∈ prepare_training_data trials, e.label = 1 ∧ e.label ≠ 0) := by
  refine ⟨fun _ _ _ _ _ => rfl, fun trials h e he => ?_⟩
  simp only [prepare_training_data, List.mem_map] at he
  obtain ⟨t, ht, rfl⟩ := he
  exact ⟨h t ht, by simp [h t ht]⟩

/-- Witness for C10 on a concrete trial list. -/
theorem c10_bridge_labels_all_one_witness :
    (collect_trial_data (fun s => s) (fun _ _ => 1) ⟨1,1,1,1⟩ [0] [0]).label = 1
    ∧ (∀ t ∈ [(⟨0, 0, 0, 0, 1⟩ : TrialRec)], t.label = 1)
    ∧ ∀ e ∈ prepare_training_data [(⟨0, 0, 0, 0, 1⟩ : TrialRec)], e.label = 1 ∧ e.label ≠ 0 :=
  ⟨c10_bridge_labels_all_one.1 (fun s => s) (fun _ _ => 1) ⟨1,1,1,1⟩ [0] [0],
   by decide,
   c10_bridge_labels_all_one.2 [⟨0, 0, 0, 0, 1⟩] (by decide)⟩

/--
C3 counterexample: a zero-sample calibration run does NOT leave a
previously valid baseline untouched — the `except` handler assigns
`baseline = None`, clearing it; and the caught exception is a
`RuntimeError` whose message is
"No EEG data collected during calibration", not an `AcquisitionError`
carrying "no data collected".
-/
theorem c3_calibration_clears_baseline_cex :
    run_calibration (fun _ => ⟨1,1,1,1⟩) []
        { status := .calibrating, calibration_complete := true, baseline := some ⟨10,5,10,5⟩ }
      = ({ status := .idle, calibration_complete := false, baseline := none },
         some (.runtimeError "No EEG data collected during calibration"))
    ∧ (none : Option Baseline) ≠ some ⟨10,5,10,5⟩ := by
  exact ⟨rfl, by simp⟩

/--
C3 amended: when a calibration run collects zero samples, the worker
catches a `RuntimeError("No EEG data collected during calibration")`
(not an `AcquisitionError("no data collected")`), the status reverts to
idle and `calibration_complete` becomes false — but the global baseline
is reset to `None`, overwriting any previously valid baseline rather
than leaving it untouched.
-/
theorem c3_calibration_zero_samples (computeBaseline : List Sig → Baseline)
    (st : BridgeState) :
    run_calibration computeBaseline [] st
      = ({ st with status := .idle, calibration_complete := false, baseline := none },
         some (.runtimeError "No EEG data collected during calibration")) :=
  rfl

/--
C4 counterexample: a training run given only 8 trials raises nothing —
`run_training` logs the shortfall and returns normally (escaped
exception `none`), so no `InsufficientDataError` is raised; and a
training run given 12 one-class trials (whose `MIClassifier.train`
call fails) does not leave the previous trained model untouched: the
global classifier has already been replaced by a fresh untrained
instance.
-/
theorem c4_no_insufficient_data_error_cex :
    run_training_finish (fun _ => .error "single class")
        (List.replicate 8 ⟨0,0,0,0,1⟩) (some ⟨true⟩)
      = (some ⟨true⟩, .idle, none)
    ∧ run_training_finish (fun _ => .error "single class")
        (List.replicate 12 ⟨0,0,0,0,1⟩) (some ⟨true⟩)
      = (some ⟨false⟩, .idle, none)
    ∧ (some (⟨false⟩ : MIClassifierState)) ≠ some ⟨true⟩ := by
  refine ⟨rfl, rfl, by simp⟩

/--
C4 amended: with fewer than 10 collected trials, `run_training` raises
no exception at all — it logs "need at least 10 trials", leaves the
previous global classifier untouched and resets the status to idle;
with at least 10 trials whose training fails (the bridge's trials all
carry label 1, a single class, on which classifier fitting fails), the
failure is caught and logged, but the previous model has already been
replaced by a fresh untrained `MIClassifier`, so it is NOT left
untouched.  No `InsufficientDataError` exists in the code.
-/
theorem c4_training_error_handling :
    (∀ (trainImpl : List TrainingExample → Except String MIClassifierState)
       (trials : List TrialRec) (prev : Option MIClassifierState),
        trials.length < 10 →
        run_training_finish trainImpl trials prev = (prev, .idle, none))
    ∧ (∀ (trainImpl : List TrainingExample → Except String MIClassifierState)
         (trials : List TrialRec) (prev : Option MIClassifierState) (msg : String),
        10 ≤ trials.length →
        trainImpl (prepare_training_data trials) = .error msg →
        run_training_finish trainImpl trials prev = (some ⟨false⟩, .idle, none)) := by
  constructor
  · intro trainImpl trials prev h
    unfold run_training_finish
    rw [if_neg (by omega)]
  · intro trainImpl trials prev msg h1 h2
    unfold run_training_finish
    rw [if_pos h1, h2]

/-- Witness for C4's amended theorem on concrete trial lists. -/
theorem c4_training_error_handling_witness :
    (List.replicate 8 (⟨0,0,0,0,1⟩ : TrialRec)).length < 10
    ∧ run_training_finish (fun _ => .ok ⟨true⟩)
        (List.replicate 8 ⟨0,0,0,0,1⟩) (some ⟨true⟩) = (some ⟨true⟩, .idle, none)
    ∧ 10 ≤ (List.replicate 12 (⟨0,0,0,0,1⟩ : TrialRec)).length
    ∧ run_training_finish (fun _ => .error "single class")
        (List.replicate 12 ⟨0,0,0,0,1⟩) (some ⟨true⟩) = (some ⟨false⟩, .idle, none) :=
  ⟨by simp,
   c4_training_error_handling.1 (fun _ => .ok ⟨true⟩) (List.replicate 8 ⟨0,0,0,0,1⟩)
     (some ⟨true⟩) (by simp),
   by simp,
   c4_training_error_handling.2 (fun _ => .error "single class")
     (List.replicate 12 ⟨0,0,0,0,1⟩) (some ⟨true⟩) "single class" (by simp) rfl⟩

/--
C7: whenever the C3 buffer holds fewer than `window_size` samples,
`process_window` returns the no-signal result
`(trigger = False, prediction = 0, confidence = 0.0, empty ERD map)`
without an error, and leaves the detector state unchanged.
-/
theorem c7_process_window_short_buffer
    (bandpass notch_filter : Sig → Sig) (psd : Sig → Band → ℚ) (baseline : Baseline)
    (classify : List ℚ → Except String (ℕ × ℚ)) (now : ℚ) (st : DetectorState)
    (h : st.c3_buffer.length < window_size) :
    process_window bandpass notch_filter psd baseline classify now st
      = .ok ({ trigger := false, prediction := 0, confidence := 0, erd_values := [] }, st) := by
  unfold process_window
  rw [if_pos h]

/-- Witness for C7 on a fresh detector with empty buffers. -/
theorem c7_process_window_short_buffer_witness :
    initDetector.c3_buffer.length < window_size
    ∧ process_window (fun s => s) (fun s => s) (fun _ _ => 1) ⟨1,1,1,1⟩
        (fun _ => .ok (1, 1)) 0 initDetector
      = .ok ({ trigger := false, prediction := 0, confidence := 0, erd_values := [] },
             initDetector) :=
  ⟨by decide,
   c7_process_window_short_buffer (fun s => s) (fun s => s) (fun _ _ => 1) ⟨1,1,1,1⟩
     (fun _ => .ok (1, 1)) 0 initDetector (by decide)⟩

/-- Bounded-deque append, in closed form: when the buffer is within
capacity, appending drops exactly the overflow from the left. -/
theorem dequeAppend_eq {α : Type} (m : ℕ) (acc : List α) (x : α) :
    dequeAppend m acc x = (acc ++ [x]).drop (acc.length + 1 - m) := by
  unfold dequeAppend
  by_cases hc : m < (acc ++ [x]).length
  · rw [if_pos hc]
    simp [List.length_append]
  · rw [if_neg hc]
    simp only [List.length_append, List.length_cons, List.length_nil, Nat.not_lt] at hc
    rw [Nat.sub_eq_zero_of_le (by omega), List.drop_zero]

/-- Folding bounded-deque appends over a sample list keeps exactly the
most recent `m` elements: the tail of the concatenation. -/
theorem foldl_dequeAppend {α : Type} (m : ℕ) (xs : List α) :
    ∀ acc : List α, acc.length ≤ m →
      xs.foldl (dequeAppend m) acc = (acc ++ xs).drop (acc.length + xs.length - m) := by
  induction xs with
  | nil =>
    intro acc h
    simp [Nat.sub_eq_zero_of_le h]
  | cons x t ih =>
    intro acc h
    rw [List.foldl_cons, dequeAppend_eq m acc x]
    have hlen2 : ((acc ++ [x]).drop (acc.length + 1 - m)).length ≤ m := by
      simp only [List.length_drop, List.length_append, List.length_cons, List.length_nil]
      omega
    rw [ih _ hlen2]
    have hd : acc.length + 1 - m ≤ (acc ++ [x]).length := by
      simp only [List.length_append, List.length_cons, List.length_nil]
      omega
    rw [← List.drop_append_of_le_length hd, List.drop_drop]
    simp only [List.append_assoc, List.singleton_append, List.length_drop,
      List.length_append, List.length_cons, List.length_nil]
    congr 1
    omega

/-- The two ring buffers of a detector evolve under `add_sample` exactly
as independent bounded deques over the per-channel sample streams. -/
theorem foldl_add_sample (ps : List (ℚ × ℚ)) :
    ∀ st : DetectorState,
      (ps.foldl (fun s p => add_sample s p.1 p.2) st).c3_buffer
          = (ps.map Prod.fst).foldl (dequeAppend window_size) st.c3_buffer
      ∧ (ps.foldl (fun s p => add_sample s p.1 p.2) st).c4_buffer
          = (ps.map Prod.snd).foldl (dequeAppend window_size) st.c4_buffer := by
  induction ps with
  | nil => exact fun st => ⟨rfl, rfl⟩
  | cons p t ih =>
    intro st
    simpa [add_sample] using ih (add_sample st p.1 p.2)

/--
C9: after feeding `window_size + k` samples (k > 0) to a fresh detector
through `add_sample`, each per-channel buffer has length exactly
`window_size` and holds the most recent `window_size` samples in order:
the oldest `k` samples have been evicted.
-/
theorem c9_buffer_evicts_oldest (k : ℕ) (samples : List (ℚ × ℚ)) (_hk : 0 < k)
    (hlen : samples.length = window_size + k) :
    (samples.foldl (fun s p => add_sample s p.1 p.2) initDetector).c3_buffer
        = (samples.map Prod.fst).drop k
    ∧ (samples.foldl (fun s p => add_sample s p.1 p.2) initDetector).c4_buffer
        = (samples.map Prod.snd).drop k
    ∧ (samples.foldl (fun s p => add_sample s p.1 p.2) initDetector).c3_buffer.length
        = window_size
    ∧ (samples.foldl (fun s p => add_sample s p.1 p.2) initDetector).c4_buffer.length
        = window_size := by
  obtain ⟨h3, h4⟩ := foldl_add_sample samples initDetector
  have e3 : (samples.foldl (fun s p => add_sample s p.1 p.2) initDetector).c3_buffer
      = (samples.map Prod.fst).drop k := by
    rw [h3]
    show (samples.map Prod.fst).foldl (dequeAppend window_size) [] = _
    rw [foldl_dequeAppend window_size (samples.map Prod.fst) [] (by simp)]
    simp [List.length_map, hlen]
  have e4 : (samples.foldl (fun s p => add_sample s p.1 p.2) initDetector).c4_buffer
      = (samples.map Prod.snd).drop k := by
    rw [h4]
    show (samples.map Prod.snd).foldl (dequeAppend window_size) [] = _
    rw [foldl_dequeAppend window_size (samples.map Prod.snd) [] (by simp)]
    simp [List.length_map, hlen]
  refine ⟨e3, e4, ?_, ?_⟩
  · rw [e3]
    simp [List.length_drop, List.length_map, hlen]
  · rw [e4]
    simp [List.length_drop, List.length_map, hlen]

/-- Witness for C9: 251 samples into the 250-sample window. -/
theorem c9_buffer_evicts_oldest_witness :
    0 < 1
    ∧ (List.replicate 251 ((0:ℚ), (0:ℚ))).length = window_size + 1
    ∧ ((List.replicate 251 ((0:ℚ), (0:ℚ))).foldl
          (fun s p => add_sample s p.1 p.2) initDetector).c3_buffer
        = ((List.replicate 251 ((0:ℚ), (0:ℚ))).map Prod.fst).drop 1
    ∧ ((List.replicate 251 ((0:ℚ), (0:ℚ))).foldl
          (fun s p => add_sample s p.1 p.2) initDetector).c3_buffer.length
        = window_size := by
  have h := c9_buffer_evicts_oldest 1 (List.replicate 251 ((0:ℚ), (0:ℚ)))
    (by decide) (by norm_num [List.length_replicate, window_size])
  exact ⟨by decide, by norm_num [List.length_replicate, window_size], h.1, h.2.2.1⟩

/-- One class-1 step on a full-buffer detector with empty history:
the history becomes `[true]`, no trigger. -/
theorem pw_class1_from_nil (bandpass notch_filter : Sig → Sig) (psd : Sig → Band → ℚ)
    (base : Baseline) (conf t : ℚ) (b3 b4 : List ℚ) (hlen : b3.length = window_size) :
    process_window bandpass notch_filter psd base (fun _ => .ok (1, conf)) t
        ⟨b3, b4, [], 0, false⟩
      = .ok ({ trigger := false, prediction := 1, confidence := conf,
               erd_values := erdValuesList (detection_erds bandpass notch_filter psd base b3 b4) },
             ⟨b3, b4, [true], 0, false⟩) := by
  have hnot : ¬ b3.length < window_size := by omega
  simp [process_window, hnot, dequeAppend, CONFIDENCE_WINDOWS]

/-- Second consecutive class-1 step: history `[true] → [true, true]`,
still no trigger. -/
theorem pw_class1_from_one (bandpass notch_filter : Sig → Sig) (psd : Sig → Band → ℚ)
    (base : Baseline) (conf t : ℚ) (b3 b4 : List ℚ) (hlen : b3.length = window_size) :
    process_window bandpass notch_filter psd base (fun _ => .ok (1, conf)) t
        ⟨b3, b4, [true], 0, false⟩
      = .ok ({ trigger := false, prediction := 1, confidence := conf,
               erd_values := erdValuesList (detection_erds bandpass notch_filter psd base b3 b4) },
             ⟨b3, b4, [true, true], 0, false⟩) := by
  have hnot : ¬ b3.length < window_size := by omega
  simp [process_window, hnot, dequeAppend, CONFIDENCE_WINDOWS]

/-- Third consecutive class-1 step, past the cooldown: unanimous full
history, inactive detector — the trigger fires and the latch is set. -/
theorem pw_class1_fire (bandpass notch_filter : Sig → Sig) (psd : Sig → Band → ℚ)
    (base : Baseline) (conf t : ℚ) (b3 b4 : List ℚ) (hlen : b3.length = window_size)
    (ht : TRIGGER_COOLDOWN < t) :
    process_window bandpass notch_filter psd base (fun _ => .ok (1, conf)) t
        ⟨b3, b4, [true, true], 0, false⟩
      = .ok ({ trigger := true, prediction := 1, confidence := conf,
               erd_values := erdValuesList (detection_erds bandpass notch_filter psd base b3 b4) },
             ⟨b3, b4, [true, true, true], t, true⟩) := by
  have hnot : ¬ b3.length < window_size := by omega
  simp [process_window, hnot, ht, dequeAppend, CONFIDENCE_WINDOWS]

/-- A class-1 step while the latch is set: unanimous full history but
`is_mi_active` blocks re-triggering, whatever the clock says. -/
theorem pw_class1_latched (bandpass notch_filter : Sig → Sig) (psd : Sig → Band → ℚ)
    (base : Baseline) (conf t ltt : ℚ) (b3 b4 : List ℚ) (hlen : b3.length = window_size) :
    process_window bandpass notch_filter psd base (fun _ => .ok (1, conf)) t
        ⟨b3, b4, [true, true, true], ltt, true⟩
      = .ok ({ trigger := false, prediction := 1, confidence := conf,
               erd_values := erdValuesList (detection_erds bandpass notch_filter psd base b3 b4) },
             ⟨b3, b4, [true, true, true], ltt, true⟩) := by
  have hnot : ¬ b3.length < window_size := by omega
  simp [process_window, hnot, dequeAppend, CONFIDENCE_WINDOWS]

/--
C1: on every full-buffer `process_window` step, the trigger fires iff
the bounded detection history (after recording this step's prediction)
is full with `CONFIDENCE_WINDOWS` entries and every entry is true, the
detector's `is_mi_active` flag was false, and strictly more than
`TRIGGER_COOLDOWN` seconds have elapsed since the last trigger.
Consequently, on a fresh full-buffer detector, 2 = `CONFIDENCE_WINDOWS`
− 1 consecutive class-1 predictions never trigger; 3 =
`CONFIDENCE_WINDOWS` consecutive class-1 predictions trigger exactly
once (on the third step); and a further class-1 prediction within the
cooldown does not re-trigger.
-/
theorem c1_trigger_rule :
    (∀ (bandpass notch_filter : Sig → Sig) (psd : Sig → Band → ℚ) (baseline : Baseline)
       (classify : List ℚ → Except String (ℕ × ℚ)) (now : ℚ) (st : DetectorState)
       (p : ℕ) (c : ℚ),
        st.c3_buffer.length = window_size →
        classify (featureVector (detection_erds bandpass notch_filter psd baseline
            st.c3_buffer st.c4_buffer)) = .ok (p, c) →
        ((process_window bandpass notch_filter psd baseline classify now st).map
            (fun r => r.1.trigger) = .ok true
          ↔ ((dequeAppend CONFIDENCE_WINDOWS st.detection_history (p == 1)).length
                = CONFIDENCE_WINDOWS
              ∧ (∀ b ∈ dequeAppend CONFIDENCE_WINDOWS st.detection_history (p == 1), b = true)
              ∧ st.is_mi_active = false
              ∧ now - st.last_trigger_time > TRIGGER_COOLDOWN)))
    ∧ (∀ (bandpass notch_filter : Sig → Sig) (psd : Sig → Band → ℚ) (baseline : Baseline)
         (conf : ℚ) (b3 b4 : List ℚ) (t1 t2 : ℚ),
        b3.length = window_size →
        (run_class1 bandpass notch_filter psd baseline conf
            ⟨b3, b4, [], 0, false⟩ [t1, t2]).1 = [false, false])
    ∧ (∀ (bandpass notch_filter : Sig → Sig) (psd : Sig → Band → ℚ) (baseline : Baseline)
         (conf : ℚ) (b3 b4 : List ℚ) (t1 t2 t3 : ℚ),
        b3.length = window_size → TRIGGER_COOLDOWN < t3 →
        (run_class1 bandpass notch_filter psd baseline conf
            ⟨b3, b4, [], 0, false⟩ [t1, t2, t3]).1 = [false, false, true])
    ∧ (∀ (bandpass notch_filter : Sig → Sig) (psd : Sig → Band → ℚ) (baseline : Baseline)
         (conf : ℚ) (b3 b4 : List ℚ) (t1 t2 t3 t4 : ℚ),
        b3.length = window_size → TRIGGER_COOLDOWN < t3 →
        t4 - t3 ≤ TRIGGER_COOLDOWN →
        (run_class1 bandpass notch_filter psd baseline conf
            ⟨b3, b4, [], 0, false⟩ [t1, t2, t3, t4]).1 = [false, false, true, false]) := by
  refine ⟨?_, ?_, ?_, ?_⟩
  · intro bandpass notch_filter psd baseline classify now st p c hlen hcl
    have hnot : ¬ st.c3_buffer.length < window_size := by omega
    simp only [process_window, hnot, if_false, hcl, Except.map]
    by_cases h1 : (((dequeAppend CONFIDENCE_WINDOWS st.detection_history (p == 1)).length
          == CONFIDENCE_WINDOWS
        && (dequeAppend CONFIDENCE_WINDOWS st.detection_history (p == 1)).count true
          == CONFIDENCE_WINDOWS)
        && !st.is_mi_active) = true
    · rw [if_pos h1]
      simp only [Bool.and_eq_true, beq_iff_eq, Bool.not_eq_true'] at h1
      obtain ⟨⟨hlen3, hcnt⟩, hact⟩ := h1
      by_cases h2 : now - st.last_trigger_time > TRIGGER_COOLDOWN
      · rw [if_pos h2]
        simp only [Except.ok.injEq, true_iff, iff_true]
        refine ⟨hlen3, ?_, hact, h2⟩
        intro b hb
        have := (List.count_eq_length.mp (by rw [hcnt, hlen3])) b hb
        exact this.symm
      · rw [if_neg h2]
        simp only [Except.ok.injEq]
        constructor
        · intro hfalse
          exact absurd hfalse (by simp)
        · rintro ⟨-, -, -, h4⟩
          exact absurd h4 h2
    · rw [if_neg h1]
      simp only [Except.ok.injEq]
      constructor
      · intro hfalse
        exact absurd hfalse (by simp)
      · rintro ⟨hlen3, hall, hact, -⟩
        refine absurd ?_ h1
        simp only [Bool.and_eq_true, beq_iff_eq, Bool.not_eq_true']
        refine ⟨⟨hlen3, ?_⟩, hact⟩
        rw [List.count_eq_length.mpr fun b hb => (hall b hb).symm, hlen3]
  · intro bandpass notch_filter psd baseline conf b3 b4 t1 t2 hlen
    simp [run_class1,
      pw_class1_from_nil bandpass notch_filter psd baseline conf t1 b3 b4 hlen,
      pw_class1_from_one bandpass notch_filter psd baseline conf t2 b3 b4 hlen]
  · intro bandpass notch_filter psd baseline conf b3 b4 t1 t2 t3 hlen ht3
    simp [run_class1,
      pw_class1_from_nil bandpass notch_filter psd baseline conf t1 b3 b4 hlen,
      pw_class1_from_one bandpass notch_filter psd baseline conf t2 b3 b4 hlen,
      pw_class1_fire bandpass notch_filter psd baseline conf t3 b3 b4 hlen ht3]
  · intro bandpass notch_filter psd baseline conf b3 b4 t1 t2 t3 t4 hlen ht3 ht4
    simp [run_class1,
      pw_class1_from_nil bandpass notch_filter psd baseline conf t1 b3 b4 hlen,
      pw_class1_from_one bandpass notch_filter psd baseline conf t2 b3 b4 hlen,
      pw_class1_fire bandpass notch_filter psd baseline conf t3 b3 b4 hlen ht3,
      pw_class1_latched bandpass notch_filter psd baseline conf t4 t3 b3 b4 hlen]

/-- Witness for C1: a full 250-sample buffer, concrete step times
0, 1, 3, 4 (the third step is past the 2-second cooldown from the
initial clock 0; the fourth is 1 second after the trigger, inside the
cooldown). -/
theorem c1_trigger_rule_witness :
    (List.replicate 250 (0:ℚ)).length = window_size
    ∧ ((process_window (fun s => s) (fun s => s) (fun _ _ => 1) ⟨1,1,1,1⟩
          (fun _ => .ok (1, 1)) 3
          ⟨List.replicate 250 0, List.replicate 250 0, [true, true], 0, false⟩).map
          (fun r => r.1.trigger) = .ok true
        ↔ ((dequeAppend CONFIDENCE_WINDOWS [true, true] ((1:ℕ) == 1)).length
              = CONFIDENCE_WINDOWS
            ∧ (∀ b ∈ dequeAppend CONFIDENCE_WINDOWS [true, true] ((1:ℕ) == 1), b = true)
            ∧ false = false
            ∧ (3:ℚ) - 0 > TRIGGER_COOLDOWN))
    ∧ (run_class1 (fun s => s) (fun s => s) (fun _ _ => 1) ⟨1,1,1,1⟩ 1
        ⟨List.replicate 250 0, List.replicate 250 0, [], 0, false⟩ [0, 1]).1
        = [false, false]
    ∧ TRIGGER_COOLDOWN < (3:ℚ)
    ∧ (run_class1 (fun s => s) (fun s => s) (fun _ _ => 1) ⟨1,1,1,1⟩ 1
        ⟨List.replicate 250 0, List.replicate 250 0, [], 0, false⟩ [0, 1, 3]).1
        = [false, false, true]
    ∧ (4:ℚ) - 3 ≤ TRIGGER_COOLDOWN
    ∧ (run_class1 (fun s => s) (fun s => s) (fun _ _ => 1) ⟨1,1,1,1⟩ 1
        ⟨List.replicate 250 0, List.replicate 250 0, [], 0, false⟩ [0, 1, 3, 4]).1
        = [false, false, true, false] := by
  have hlen : (List.replicate 250 (0:ℚ)).length = window_size := by
    norm_num [List.length_replicate, window_size]
  have ht3 : TRIGGER_COOLDOWN < (3:ℚ) := by norm_num [TRIGGER_COOLDOWN]
  have ht4 : (4:ℚ) - 3 ≤ TRIGGER_COOLDOWN := by norm_num [TRIGGER_COOLDOWN]
  refine ⟨hlen, ?_, ?_, ht3, ?_, ht4, ?_⟩
  · exact c1_trigger_rule.1 (fun s => s) (fun s => s) (fun _ _ => 1) ⟨1,1,1,1⟩
      (fun _ => .ok (1, 1)) 3
      ⟨List.replicate 250 0, List.replicate 250 0, [true, true], 0, false⟩ 1 1 hlen rfl
  · exact c1_trigger_rule.2.1 (fun s => s) (fun s => s) (fun _ _ => 1) ⟨1,1,1,1⟩ 1
      (List.replicate 250 0) (List.replicate 250 0) 0 1 hlen
  · exact c1_trigger_rule.2.2.1 (fun s => s) (fun s => s) (fun _ _ => 1) ⟨1,1,1,1⟩ 1
      (List.replicate 250 0) (List.replicate 250 0) 0 1 3 hlen ht3
  · exact c1_trigger_rule.2.2.2 (fun s => s) (fun s => s) (fun _ _ => 1) ⟨1,1,1,1⟩ 1
      (List.replicate 250 0) (List.replicate 250 0) 0 1 3 4 hlen ht3 ht4

/--
C8: on a full-buffer `process_window` step whose classifier prediction
is rest (0), the detector's `is_mi_active` flag is false after the
step, whatever the detection history, previous latch value or trigger
clock — a single contrary prediction releases the already-fired latch.
-/
theorem c8_rest_prediction_clears_latch
    (bandpass notch_filter : Sig → Sig) (psd : Sig → Band → ℚ) (baseline : Baseline)
    (classify : List ℚ → Except String (ℕ × ℚ)) (conf now : ℚ) (st : DetectorState)
    (hlen : st.c3_buffer.length = window_size)
    (hcl : classify (featureVector
        (detection_erds bandpass notch_filter psd baseline st.c3_buffer st.c4_buffer))
      = .ok (0, conf)) :
    (process_window bandpass notch_filter psd baseline classify now st).map
        (fun r => r.2.is_mi_active)
      = .ok false := by
  have hnot : ¬ st.c3_buffer.length < window_size := by omega
  simp [process_window, hnot, hcl, Except.map]

/-- Witness for C8: a full buffer, a unanimous history and a set latch,
released by one rest prediction. -/
theorem c8_rest_prediction_clears_latch_witness :
    (List.replicate 250 (0:ℚ)).length = window_size
    ∧ ((fun _ => (.ok (0, 1) : Except String (ℕ × ℚ)))
        (featureVector (detection_erds (fun s => s) (fun s => s) (fun _ _ => 1) ⟨1,1,1,1⟩
          (List.replicate 250 0) (List.replicate 250 0))) = .ok (0, 1))
    ∧ (process_window (fun s => s) (fun s => s) (fun _ _ => 1) ⟨1,1,1,1⟩
          (fun _ => .ok (0, 1)) 5
          ⟨List.replicate 250 0, List.replicate 250 0, [true, true, true], 0, true⟩).map
        (fun r => r.2.is_mi_active)
      = .ok false :=
  ⟨by simp only [List.length_replicate, window_size], rfl,
   c8_rest_prediction_clears_latch (fun s => s) (fun s => s) (fun _ _ => 1) ⟨1,1,1,1⟩
     (fun _ => .ok (0, 1)) 1 5
     ⟨List.replicate 250 0, List.replicate 250 0, [true, true, true], 0, true⟩
     (by simp only [List.length_replicate, window_size]) rfl⟩

end BCI
